import Mathlib

/-
Verification of a MongoDB HTTP proxy server (Express + MongoDB driver).
The source is a single-file Node.js server exposing data operations
(/query, /aggregate, /count, /distinct, /insertOne, /insertMany) plus
/health and /diagnose endpoints over a single lazily-connected MongoDB
client.  The embedding below models the JSON values exchanged, the
process-wide connection state (the module-level mongoClient and db
variables), the connectToMongo activation function, and each request
handler, with the MongoDB driver treated as a black box whose call
outcomes are supplied by an environment.
-/

namespace MongoProxy

/-- JSON values, as exchanged in request and response bodies. -/
inductive JVal where
  | null : JVal
  | bool (b : Bool) : JVal
  | num (n : Int) : JVal
  | str (s : String) : JVal
  | arr (xs : List JVal) : JVal
  | obj (fs : List (String × JVal)) : JVal

/-- JavaScript truthiness of a JSON value: null, false, 0 and the empty
string are falsy; every other value (including any array or object) is
truthy. -/
def jsTruthy : JVal → Bool
  | JVal.null => false
  | JVal.bool b => b
  | JVal.num n => n != 0
  | JVal.str s => s != ""
  | JVal.arr _ => true
  | JVal.obj _ => true

/-- A JavaScript error object as thrown by the driver or the runtime:
a human-readable message plus an optional driver error code
(JVal.null models an undefined code). -/
structure JsError where
  message : String
  code : JVal := JVal.null

/-- The MongoClient object: it remembers the URI it was constructed with,
and whether close() has been called on it. -/
structure Client where
  uri : String
  closed : Bool

/-- The process-wide mutable connection state: the module-level
`mongoClient` and `db` variables of the source (both initially null). -/
structure ConnState where
  mongoClient : Option Client
  db : Option String

/-- The state at process start: mongoClient = null, db = null. -/
def freshState : ConnState := { mongoClient := none, db := none }

/-- Process-wide configuration fixed at startup: MONGODB_URI and DATABASE. -/
structure Config where
  mongoUri : String
  database : String

/-- The connectToMongo function.  Mirrors the source line by line:
if mongoClient is already set it returns immediately; otherwise it first
assigns `mongoClient = new MongoClient(MONGODB_URI)`, then awaits
`mongoClient.connect()` (whose transport outcome is the black-box
`connectOutcome`); on success it assigns `db = mongoClient.db(DATABASE)`,
on failure it rethrows the error — without resetting mongoClient.
Returns the thrown-or-ok outcome, the new state, and the number of
transport connection attempts made (0 or 1). -/
def connectToMongo (cfg : Config) (connectOutcome : Except JsError Unit)
    (s : ConnState) : Except JsError Unit × ConnState × Nat :=
  if s.mongoClient.isSome then (Except.ok (), s, 0)
  else
    let s1 : ConnState :=
      { s with mongoClient := some { uri := cfg.mongoUri, closed := false } }
    match connectOutcome with
    | Except.ok _ => (Except.ok (), { s1 with db := some cfg.database }, 1)
    | Except.error e => (Except.error e, s1, 1)

/-- An HTTP response: numeric status and JSON body. -/
structure HttpResponse where
  status : Nat
  body : JVal

/-- The TypeError raised by JavaScript when a property of null is read,
as happens on `db.collection(...)` or `db.admin()` while db is null. -/
def nullReadError : JsError :=
  { message := "Cannot read properties of null", code := JVal.null }

/-- Reading the `db` handle inside a handler: `db.collection(...)` throws
a TypeError when db is still null. -/
def getDb (s : ConnState) : Except JsError String :=
  match s.db with
  | some d => Except.ok d
  | none => Except.error nullReadError

/-- The shared try/catch skeleton of every data-operation handler:
`try { await connectToMongo(); <run>; res.json(value) } catch (error)
{ res.status(500).json(errBody(error)) }`.  Returns the response, the
post-request connection state, and the number of connection attempts. -/
def tryHandler (cfg : Config) (connectOutcome : Except JsError Unit)
    (s : ConnState) (run : ConnState → Except JsError JVal)
    (errBody : JsError → JVal) : HttpResponse × ConnState × Nat :=
  match connectToMongo cfg connectOutcome s with
  | (Except.ok _, s1, a) =>
    match run s1 with
    | Except.ok v => ({ status := 200, body := v }, s1, a)
    | Except.error e => ({ status := 500, body := errBody e }, s1, a)
  | (Except.error e, s1, a) => ({ status := 500, body := errBody e }, s1, a)

/-- The fixed details string of the rich error bodies. -/
def detailsMessage : String := "Check server logs for more information"

/-- The error body of /query, /aggregate, /count and /distinct:
`{ error: error.message, code: error.code, details: ... }`. -/
def fullErrBody (e : JsError) : JVal :=
  JVal.obj [("error", JVal.str e.message), ("code", e.code),
    ("details", JVal.str detailsMessage)]

/-- The error body of /insertOne and /insertMany: `{ error: error.message }`. -/
def simpleErrBody (e : JsError) : JVal :=
  JVal.obj [("error", JVal.str e.message)]

/-- The options object of a /query request body: sort, skip and limit are
each optional (absent = undefined). -/
structure QueryOptions where
  sort : Option JVal := none
  skip : Option Int := none
  limit : Option Int := none

/-- The body of a /query request: `{ collection, query = {}, options = {} }`
with the destructuring defaults of the source. -/
structure QueryBody where
  collection : String
  query : Option JVal := none
  options : Option QueryOptions := none

/-- Truthiness of an optional JSON value: absent (undefined) is falsy,
otherwise JavaScript truthiness applies. -/
def optTruthy : Option JVal → Bool
  | none => false
  | some v => jsTruthy v

/-- The cursor option chain of the /query handler:
`if (options.sort) cursor = cursor.sort(options.sort);
 if (options.skip) cursor = cursor.skip(options.skip);
 if (options.limit) cursor = cursor.limit(options.limit);`
Each option is applied only when present and truthy (a numeric 0 is
falsy).  The driver sort is the black-box `sortFn`; skip drops a prefix
and limit keeps a prefix of the cursor contents. -/
def applyQueryOptions (sortFn : JVal → List JVal → List JVal)
    (opts : QueryOptions) (docs : List JVal) : List JVal :=
  let d1 := match opts.sort with
    | some sv => if jsTruthy sv then sortFn sv docs else docs
    | none => docs
  let d2 := match opts.skip with
    | some n => if n != 0 then d1.drop n.toNat else d1
    | none => d1
  let d3 := match opts.limit with
    | some n => if n != 0 then d2.take n.toNat else d2
    | none => d2
  d3

/-- Environment of one /query request: the transport outcome of a connect
attempt, the contents of each named collection, the driver's filter
semantics `qmatch` (which documents match a query object), the driver's
sort `sortFn`, and the outcome of the final cursor.toArray() call. -/
structure QueryEnv where
  connectOutcome : Except JsError Unit
  collData : String → List JVal
  qmatch : JVal → JVal → Bool
  sortFn : JVal → List JVal → List JVal
  toArrayOutcome : Except JsError Unit

/-- The POST /query handler: connect, `db.collection(collection)`,
`coll.find(query)` filtered in natural collection order, the option
chain, then `await cursor.toArray()`; errors anywhere are caught and
reported as 500 with the rich error body. -/
def queryHandler (cfg : Config) (env : QueryEnv) (body : QueryBody)
    (s : ConnState) : HttpResponse × ConnState × Nat :=
  tryHandler cfg env.connectOutcome s
    (fun s1 =>
      match getDb s1 with
      | Except.error e => Except.error e
      | Except.ok _ =>
        let q := body.query.getD (JVal.obj [])
        let opts := body.options.getD {}
        let matched := (env.collData body.collection).filter (env.qmatch q)
        let results := applyQueryOptions env.sortFn opts matched
        match env.toArrayOutcome with
        | Except.ok _ => Except.ok (JVal.arr results)
        | Except.error e => Except.error e)
    fullErrBody

/-- Environment of one /aggregate request: connect outcome and the outcome
of `coll.aggregate(pipeline).toArray()` (a list of result documents). -/
structure AggregateEnv where
  connectOutcome : Except JsError Unit
  aggregateOutcome : Except JsError (List JVal)

/-- The POST /aggregate handler: connect, run the pipeline, respond with
the JSON array of results; errors are caught as 500 with the rich body. -/
def aggregateHandler (cfg : Config) (env : AggregateEnv) (s : ConnState) :
    HttpResponse × ConnState × Nat :=
  tryHandler cfg env.connectOutcome s
    (fun s1 =>
      match getDb s1 with
      | Except.error e => Except.error e
      | Except.ok _ =>
        match env.aggregateOutcome with
        | Except.ok docs => Except.ok (JVal.arr docs)
        | Except.error e => Except.error e)
    fullErrBody

/-- Environment of one /count request: connect outcome and the outcome of
`coll.countDocuments(query)`. -/
structure CountEnv where
  connectOutcome : Except JsError Unit
  countOutcome : Except JsError Int

/-- The POST /count handler: connect, count, respond `{ count }`; errors
are caught as 500 with the rich body. -/
def countHandler (cfg : Config) (env : CountEnv) (s : ConnState) :
    HttpResponse × ConnState × Nat :=
  tryHandler cfg env.connectOutcome s
    (fun s1 =>
      match getDb s1 with
      | Except.error e => Except.error e
      | Except.ok _ =>
        match env.countOutcome with
        | Except.ok n => Except.ok (JVal.obj [("count", JVal.num n)])
        | Except.error e => Except.error e)
    fullErrBody

/-- Environment of one /distinct request: connect outcome and the outcome
of `coll.distinct(field, query)` (a list of unique values). -/
structure DistinctEnv where
  connectOutcome : Except JsError Unit
  distinctOutcome : Except JsError (List JVal)

/-- The POST /distinct handler: connect, distinct, respond with the JSON
array of values; errors are caught as 500 with the rich body. -/
def distinctHandler (cfg : Config) (env : DistinctEnv) (s : ConnState) :
    HttpResponse × ConnState × Nat :=
  tryHandler cfg env.connectOutcome s
    (fun s1 =>
      match getDb s1 with
      | Except.error e => Except.error e
      | Except.ok _ =>
        match env.distinctOutcome with
        | Except.ok vs => Except.ok (JVal.arr vs)
        | Except.error e => Except.error e)
    fullErrBody

/-- Environment of one insert request: connect outcome and the outcome of
`coll.insertOne(document)` or `coll.insertMany(documents)` (the driver
acknowledgement object). -/
structure InsertEnv where
  connectOutcome : Except JsError Unit
  insertOutcome : Except JsError JVal

/-- The POST /insertOne handler: connect, insert, respond with the driver
acknowledgement; errors are caught as 500 with the simple `{error}` body. -/
def insertOneHandler (cfg : Config) (env : InsertEnv) (s : ConnState) :
    HttpResponse × ConnState × Nat :=
  tryHandler cfg env.connectOutcome s
    (fun s1 =>
      match getDb s1 with
      | Except.error e => Except.error e
      | Except.ok _ => env.insertOutcome)
    simpleErrBody

/-- The POST /insertMany handler: identical shape to /insertOne with the
bulk driver primitive; errors are caught as 500 with the `{error}` body. -/
def insertManyHandler (cfg : Config) (env : InsertEnv) (s : ConnState) :
    HttpResponse × ConnState × Nat :=
  tryHandler cfg env.connectOutcome s
    (fun s1 =>
      match getDb s1 with
      | Except.error e => Except.error e
      | Except.ok _ => env.insertOutcome)
    simpleErrBody

/-- The health object assembled by the GET /health handler. -/
structure Health where
  status : String
  connected : Bool
  database : String
  timestamp : String
  ping : Option String := none
  testCollection : Option String := none
  documentCount : Option Int := none
  pingError : Option String := none

/-- Environment of one GET /health request: the wall-clock timestamp and
the outcomes of the `db.admin().ping()` and `countDocuments()` probes
(used only when db is non-null). -/
structure HealthEnv where
  timestamp : String
  pingOutcome : Except JsError Unit
  countOutcome : Except JsError Int

/-- The body of GET /health: starts from
`{ status: ok, connected: db !== null, database, timestamp }`; when db is
non-null it probes ping then countDocuments inside one try, recording
ping=success / testCollection=accessible / documentCount on success, and
on any probe failure ping=failed, pingError and status=degraded.  It
never calls connectToMongo. -/
def runHealth (cfg : Config) (env : HealthEnv) (s : ConnState) : Health :=
  let base : Health :=
    { status := "ok", connected := s.db.isSome,
      database := cfg.database, timestamp := env.timestamp }
  match s.db with
  | none => base
  | some _ =>
    match env.pingOutcome with
    | Except.error e =>
      { base with
          ping := some "failed", pingError := some e.message,
          status := "degraded" }
    | Except.ok _ =>
      match env.countOutcome with
      | Except.ok n =>
        { base with
            ping := some "success",
            testCollection := some "accessible", documentCount := some n }
      | Except.error e =>
        { base with
            ping := some "failed", pingError := some e.message,
            status := "degraded" }

/-- Serialization helper: a JSON object field present only when the value
is set (res.json drops undefined properties). -/
def optField (k : String) (v : Option JVal) : List (String × JVal) :=
  match v with
  | some x => [(k, x)]
  | none => []

/-- JSON serialization of the health object, fields in assignment order. -/
def healthJson (h : Health) : JVal :=
  JVal.obj ([("status", JVal.str h.status),
    ("connected", JVal.bool h.connected),
    ("database", JVal.str h.database),
    ("timestamp", JVal.str h.timestamp)]
    ++ optField "ping" (h.ping.map JVal.str)
    ++ optField "testCollection" (h.testCollection.map JVal.str)
    ++ optField "documentCount" (h.documentCount.map JVal.num)
    ++ optField "pingError" (h.pingError.map JVal.str))

/-- The GET /health handler: always `res.json(health)` (status 200), never
touches mongoClient or db, makes no connection attempt. -/
def healthHandler (cfg : Config) (env : HealthEnv) (s : ConnState) :
    HttpResponse × ConnState × Nat :=
  ({ status := 200, body := healthJson (runHealth cfg env s) }, s, 0)

/-- One sub-probe result of GET /diagnose: a status string
("success" or "failed"), an error message when failed, and the extra
fields some probes attach on success. -/
structure ProbeResult where
  status : String
  error : Option String := none
  count : Option Int := none
  collections : Option (List String) := none
  hasSampleData : Option Bool := none

/-- The diagnostics object assembled by GET /diagnose: environment and
connection snapshots plus the four sequential sub-probes.  The ping,
listCollections and networkTests probes are optional because the handler
returns early when the connection probe fails. -/
structure Diagnostics where
  timestamp : String
  nodeVersion : String
  port : Nat
  database : String
  mongoUriConfigured : Bool
  mongoUriHost : Option String
  clientInitialized : Bool
  dbInitialized : Bool
  testsConnection : ProbeResult
  testsPing : Option ProbeResult := none
  testsListCollections : Option ProbeResult := none
  testsNetworkTests : Option ProbeResult := none

/-- `MONGODB_URI ? MONGODB_URI.split(...)[1]?.split(...)[0] : ...`:
the host part of the URI, "not configured" when the URI is falsy, and
undefined (none) when the URI has no @ separator. -/
def mongoUriHost (uri : String) : Option String :=
  if uri = "" then some "not configured"
  else
    match (uri.splitOn "@").drop 1 with
    | [] => none
    | seg :: _ => (seg.splitOn "/").head?

/-- Environment of one GET /diagnose request: timestamp, node version,
and the outcomes of the connect transport, ping, listCollections,
countDocuments and findOne driver calls. -/
structure DiagEnv where
  timestamp : String
  nodeVersion : String
  connectOutcome : Except JsError Unit
  pingOutcome : Except JsError Unit
  listOutcome : Except JsError (List String)
  countOutcome : Except JsError Int
  findOneOutcome : Except JsError (Option JVal)

/-- A failed sub-probe: `{ status: failed, error: error.message }`. -/
def probeFail (e : JsError) : ProbeResult :=
  { status := "failed", error := some e.message }

/-- Test 2 of /diagnose: `await db.admin().ping()` in its own try/catch;
reading a property of a null db throws, failing the probe. -/
def pingProbe (env : DiagEnv) (s1 : ConnState) : ProbeResult :=
  match s1.db with
  | none => probeFail nullReadError
  | some _ =>
    match env.pingOutcome with
    | Except.ok _ => { status := "success" }
    | Except.error e => probeFail e

/-- Test 3 of /diagnose: `db.listCollections().toArray()` in its own
try/catch, recording the collection count and names on success. -/
def listProbe (env : DiagEnv) (s1 : ConnState) : ProbeResult :=
  match s1.db with
  | none => probeFail nullReadError
  | some _ =>
    match env.listOutcome with
    | Except.ok names =>
      { status := "success", count := some (names.length : Int),
        collections := some names }
    | Except.error e => probeFail e

/-- Test 4 of /diagnose: countDocuments then findOne on network_tests in
one try/catch, recording the count and sample presence on success. -/
def netProbe (env : DiagEnv) (s1 : ConnState) : ProbeResult :=
  match s1.db with
  | none => probeFail nullReadError
  | some _ =>
    match env.countOutcome with
    | Except.error e => probeFail e
    | Except.ok n =>
      match env.findOneOutcome with
      | Except.error e => probeFail e
      | Except.ok sample =>
        { status := "success", count := some n,
          hasSampleData := some sample.isSome }

/-- The GET /diagnose computation.  Snapshots environment and connection
state, then runs the four probes in order, each in its own try/catch:
connection (connectToMongo — on failure the handler responds early with
only that probe recorded), ping, listCollections, and the network_tests
sample query (countDocuments then findOne). -/
def runDiagnose (cfg : Config) (port : Nat) (env : DiagEnv) (s : ConnState) :
    Diagnostics × ConnState × Nat :=
  let base : Diagnostics := {
    timestamp := env.timestamp, nodeVersion := env.nodeVersion,
    port := port, database := cfg.database,
    mongoUriConfigured := cfg.mongoUri != "",
    mongoUriHost := mongoUriHost cfg.mongoUri,
    clientInitialized := s.mongoClient.isSome,
    dbInitialized := s.db.isSome,
    testsConnection := { status := "success" } }
  match connectToMongo cfg env.connectOutcome s with
  | (Except.error e, s1, a) =>
    ({ base with testsConnection := probeFail e }, s1, a)
  | (Except.ok _, s1, a) =>
    ({ base with
        testsPing := some (pingProbe env s1),
        testsListCollections := some (listProbe env s1),
        testsNetworkTests := some (netProbe env s1) }, s1, a)

/-- JSON serialization of one sub-probe, fields in assignment order. -/
def probeJson (p : ProbeResult) : JVal :=
  JVal.obj ([("status", JVal.str p.status)]
    ++ optField "error" (p.error.map JVal.str)
    ++ optField "count" (p.count.map JVal.num)
    ++ optField "collections"
      (p.collections.map (fun ns => JVal.arr (ns.map JVal.str)))
    ++ optField "hasSampleData" (p.hasSampleData.map JVal.bool))

/-- JSON serialization of the diagnostics object. -/
def diagJson (d : Diagnostics) : JVal :=
  JVal.obj [
    ("timestamp", JVal.str d.timestamp),
    ("environment", JVal.obj ([
      ("nodeVersion", JVal.str d.nodeVersion),
      ("port", JVal.num (d.port : Int)),
      ("database", JVal.str d.database),
      ("mongoUriConfigured", JVal.bool d.mongoUriConfigured)]
      ++ optField "mongoUriHost" (d.mongoUriHost.map JVal.str))),
    ("connection", JVal.obj [
      ("clientInitialized", JVal.bool d.clientInitialized),
      ("dbInitialized", JVal.bool d.dbInitialized)]),
    ("tests", JVal.obj ([("connection", probeJson d.testsConnection)]
      ++ optField "ping" (d.testsPing.map probeJson)
      ++ optField "listCollections" (d.testsListCollections.map probeJson)
      ++ optField "networkTests" (d.testsNetworkTests.map probeJson)))]

/-- The GET /diagnose handler: both the early-return path and the full
path end in `res.json(diagnostics)`, so the status is always 200. -/
def diagnoseHandler (cfg : Config) (port : Nat) (env : DiagEnv)
    (s : ConnState) : HttpResponse × ConnState × Nat :=
  match runDiagnose cfg port env s with
  | (d, s1, a) => ({ status := 200, body := diagJson d }, s1, a)

/-- The SIGINT handler: `if (mongoClient) await mongoClient.close();
process.exit(0)`.  Returns the exit code and the state in which the
client, when present, has been closed. -/
def sigintHandler (s : ConnState) : Nat × ConnState :=
  match s.mongoClient with
  | some c => (0, { s with mongoClient := some { c with closed := true } })
  | none => (0, s)

/-- Outcome of process start: either an early exit with a code, or a
listener opened on a port. -/
inductive StartOutcome where
  | exitCode (code : Nat) : StartOutcome
  | listening (port : Nat) : StartOutcome

/-- The startup sequence: `if (!MONGODB_URI) { ...; process.exit(1); }`
runs before `app.listen(PORT, ...)`, so a missing (or empty, hence falsy)
MONGODB_URI environment variable exits with code 1 before any listener
opens; otherwise the process proceeds to listen on the configured port. -/
def startupCheck (mongoUriVar : Option String) (port : Nat) : StartOutcome :=
  match mongoUriVar with
  | none => StartOutcome.exitCode 1
  | some u =>
    if u = "" then StartOutcome.exitCode 1 else StartOutcome.listening port

/-- A sample configuration used to instantiate closed statements. -/
def demoConfig : Config :=
  { mongoUri := "mongodb://user:pw@host/db", database := "Saica" }

/-- A sample transport error used to instantiate closed statements. -/
def demoError : JsError := { message := "connect ECONNREFUSED" }

/-- connectToMongo returns immediately with no state change and no
connection attempt when mongoClient is already set. -/
lemma connectToMongo_already (cfg : Config) (o : Except JsError Unit)
    (s : ConnState) (h : s.mongoClient.isSome) :
    connectToMongo cfg o s = (Except.ok (), s, 0) := by
  unfold connectToMongo
  simp [h]

/-- When mongoClient is already set, a data-operation handler leaves the
connection state untouched and makes no connection attempt. -/
lemma tryHandler_already_state (cfg : Config) (o : Except JsError Unit)
    (s : ConnState) (run : ConnState → Except JsError JVal)
    (errBody : JsError → JVal) (h : s.mongoClient.isSome) :
    (tryHandler cfg o s run errBody).2 = (s, 0) := by
  unfold tryHandler
  rw [connectToMongo_already cfg o s h]
  cases hr : run s <;> simp [hr]

/-- Every data-operation handler response is either a 200 carrying the
driver result or a 500 carrying the handler error body of some error. -/
lemma tryHandler_cases (cfg : Config) (o : Except JsError Unit)
    (s : ConnState) (run : ConnState → Except JsError JVal)
    (errBody : JsError → JVal) :
    (∃ v, (tryHandler cfg o s run errBody).1 =
      { status := 200, body := v }) ∨
    (∃ e, (tryHandler cfg o s run errBody).1 =
      { status := 500, body := errBody e }) := by
  unfold tryHandler
  rcases hc : connectToMongo cfg o s with ⟨r, s1, a⟩
  cases r with
  | ok u =>
    cases hr : run s1 with
    | ok v => exact Or.inl ⟨v, by simp [hr]⟩
    | error e => exact Or.inr ⟨e, by simp [hr]⟩
  | error e => exact Or.inr ⟨e, rfl⟩

/-- When mongoClient is unset and the transport fails, a data-operation
handler responds 500 with the error body of that transport error. -/
lemma tryHandler_connect_fail (cfg : Config) (e : JsError) (s : ConnState)
    (run : ConnState → Except JsError JVal) (errBody : JsError → JVal)
    (h : s.mongoClient = none) :
    (tryHandler cfg (Except.error e) s run errBody).1 =
      { status := 500, body := errBody e } := by
  unfold tryHandler connectToMongo
  simp [h]

/-- When mongoClient is already set and the code inside the try block
throws, the handler responds 500 with the error body of that error. -/
lemma tryHandler_run_fail (cfg : Config) (o : Except JsError Unit)
    (s : ConnState) (run : ConnState → Except JsError JVal)
    (errBody : JsError → JVal) (e : JsError) (h : s.mongoClient.isSome)
    (hr : run s = Except.error e) :
    (tryHandler cfg o s run errBody).1 =
      { status := 500, body := errBody e } := by
  unfold tryHandler
  rw [connectToMongo_already cfg o s h]
  simp [hr]

/-- C1: the spec says that when connection establishment fails inside
connectToMongo the error propagates unmodified AND the handle remains
unestablished so that a later activation call performs a fresh attempt.
The code rethrows the error unmodified, but it assigns mongoClient
before awaiting connect() and never resets it on failure, so after a
failed attempt mongoClient is non-null with db still null, and a later
activation call returns immediately making zero fresh connection
attempts — retry is impossible. -/
theorem c1_failed_connect_blocks_retry :
    connectToMongo demoConfig (Except.error demoError) freshState =
      (Except.error demoError,
       { mongoClient := some { uri := demoConfig.mongoUri, closed := false },
         db := none }, 1) ∧
    connectToMongo demoConfig (Except.ok ())
      { mongoClient := some { uri := demoConfig.mongoUri, closed := false },
        db := none } =
      (Except.ok (),
       { mongoClient := some { uri := demoConfig.mongoUri, closed := false },
         db := none }, 0) :=
  ⟨rfl, rfl⟩

/-- C2: activation is idempotent: when the handle is already established,
connectToMongo returns immediately with no side effect and no connection
attempt; and two sequential activation calls starting from the fresh
state make exactly one connection attempt in total, whatever the
transport outcomes. -/
theorem c2_activation_idempotent (cfg : Config)
    (o1 o2 : Except JsError Unit) (s : ConnState) (c : Client)
    (h : s.mongoClient = some c) (s0 : ConnState)
    (h0 : s0.mongoClient = none) :
    connectToMongo cfg o1 s = (Except.ok (), s, 0) ∧
    (connectToMongo cfg o1 s0).2.2 +
      (connectToMongo cfg o2 (connectToMongo cfg o1 s0).2.1).2.2 = 1 := by
  refine ⟨connectToMongo_already cfg o1 s (by simp [h]), ?_⟩
  unfold connectToMongo
  simp only [h0]
  cases o1 <;> simp

/-- Witness for C2 at concrete inputs. -/
theorem c2_activation_idempotent_witness :
    connectToMongo demoConfig (Except.ok ())
      { mongoClient := some { uri := "u", closed := false },
        db := some "Saica" } =
      (Except.ok (),
       { mongoClient := some { uri := "u", closed := false },
         db := some "Saica" }, 0) ∧
    (connectToMongo demoConfig (Except.ok ()) freshState).2.2 +
      (connectToMongo demoConfig (Except.ok ())
        (connectToMongo demoConfig (Except.ok ()) freshState).2.1).2.2 = 1 :=
  c2_activation_idempotent demoConfig (Except.ok ()) (Except.ok ())
    { mongoClient := some { uri := "u", closed := false },
      db := some "Saica" }
    { uri := "u", closed := false } rfl freshState rfl

/-- Field lookup in a JSON object (none on non-objects). -/
def lookupField (k : String) : JVal → Option JVal
  | JVal.obj fs => fs.lookup k
  | _ => none

/-- A sample query environment whose connect attempt fails. -/
def demoQueryEnv : QueryEnv :=
  { connectOutcome := Except.error demoError, collData := fun _ => [],
    qmatch := fun _ _ => true, sortFn := fun _ d => d,
    toArrayOutcome := Except.ok () }

/-- C3: for every data operation, a failure of activation or of the
driver call is caught at the handler boundary and converted to an HTTP
500 whose JSON body carries the underlying error message; no other
outcome than a 200 with the driver result or such a 500 is possible
(the handlers are total, so no failure escapes or is silent).
Conjuncts: (1)-(6) activation failure gives 500 with that error body for
each handler; (7)-(12) a driver-call failure on an established
connection gives 500 with that error body; (13)-(18) every response is a
200 or a 500 carrying an error body; (19) both error body shapes embed
the human-readable message under the error key. -/
theorem c3_data_operation_failures_become_500 (cfg : Config) :
    (∀ (e : JsError) (s : ConnState), s.mongoClient = none →
      ∀ (env : QueryEnv), env.connectOutcome = Except.error e →
      ∀ body, (queryHandler cfg env body s).1 =
        { status := 500, body := fullErrBody e }) ∧
    (∀ (e : JsError) (s : ConnState), s.mongoClient = none →
      ∀ (env : AggregateEnv), env.connectOutcome = Except.error e →
      (aggregateHandler cfg env s).1 =
        { status := 500, body := fullErrBody e }) ∧
    (∀ (e : JsError) (s : ConnState), s.mongoClient = none →
      ∀ (env : CountEnv), env.connectOutcome = Except.error e →
      (countHandler cfg env s).1 =
        { status := 500, body := fullErrBody e }) ∧
    (∀ (e : JsError) (s : ConnState), s.mongoClient = none →
      ∀ (env : DistinctEnv), env.connectOutcome = Except.error e →
      (distinctHandler cfg env s).1 =
        { status := 500, body := fullErrBody e }) ∧
    (∀ (e : JsError) (s : ConnState), s.mongoClient = none →
      ∀ (env : InsertEnv), env.connectOutcome = Except.error e →
      (insertOneHandler cfg env s).1 =
        { status := 500, body := simpleErrBody e }) ∧
    (∀ (e : JsError) (s : ConnState), s.mongoClient = none →
      ∀ (env : InsertEnv), env.connectOutcome = Except.error e →
      (insertManyHandler cfg env s).1 =
        { status := 500, body := simpleErrBody e }) ∧
    (∀ (e : JsError) (s : ConnState) (c : Client) (d : String),
      s.mongoClient = some c → s.db = some d →
      ∀ (env : QueryEnv), env.toArrayOutcome = Except.error e →
      ∀ body, (queryHandler cfg env body s).1 =
        { status := 500, body := fullErrBody e }) ∧
    (∀ (e : JsError) (s : ConnState) (c : Client) (d : String),
      s.mongoClient = some c → s.db = some d →
      ∀ (env : AggregateEnv), env.aggregateOutcome = Except.error e →
      (aggregateHandler cfg env s).1 =
        { status := 500, body := fullErrBody e }) ∧
    (∀ (e : JsError) (s : ConnState) (c : Client) (d : String),
      s.mongoClient = some c → s.db = some d →
      ∀ (env : CountEnv), env.countOutcome = Except.error e →
      (countHandler cfg env s).1 =
        { status := 500, body := fullErrBody e }) ∧
    (∀ (e : JsError) (s : ConnState) (c : Client) (d : String),
      s.mongoClient = some c → s.db = some d →
      ∀ (env : DistinctEnv), env.distinctOutcome = Except.error e →
      (distinctHandler cfg env s).1 =
        { status := 500, body := fullErrBody e }) ∧
    (∀ (e : JsError) (s : ConnState) (c : Client) (d : String),
      s.mongoClient = some c → s.db = some d →
      ∀ (env : InsertEnv), env.insertOutcome = Except.error e →
      (insertOneHandler cfg env s).1 =
        { status := 500, body := simpleErrBody e }) ∧
    (∀ (e : JsError) (s : ConnState) (c : Client) (d : String),
      s.mongoClient = some c → s.db = some d →
      ∀ (env : InsertEnv), env.insertOutcome = Except.error e →
      (insertManyHandler cfg env s).1 =
        { status := 500, body := simpleErrBody e }) ∧
    (∀ (env : QueryEnv) body s,
      (∃ v, (queryHandler cfg env body s).1 = { status := 200, body := v }) ∨
      (∃ e, (queryHandler cfg env body s).1 =
        { status := 500, body := fullErrBody e })) ∧
    (∀ (env : AggregateEnv) s,
      (∃ v, (aggregateHandler cfg env s).1 = { status := 200, body := v }) ∨
      (∃ e, (aggregateHandler cfg env s).1 =
        { status := 500, body := fullErrBody e })) ∧
    (∀ (env : CountEnv) s,
      (∃ v, (countHandler cfg env s).1 = { status := 200, body := v }) ∨
      (∃ e, (countHandler cfg env s).1 =
        { status := 500, body := fullErrBody e })) ∧
    (∀ (env : DistinctEnv) s,
      (∃ v, (distinctHandler cfg env s).1 = { status := 200, body := v }) ∨
      (∃ e, (distinctHandler cfg env s).1 =
        { status := 500, body := fullErrBody e })) ∧
    (∀ (env : InsertEnv) s,
      (∃ v, (insertOneHandler cfg env s).1 = { status := 200, body := v }) ∨
      (∃ e, (insertOneHandler cfg env s).1 =
        { status := 500, body := simpleErrBody e })) ∧
    (∀ (env : InsertEnv) s,
      (∃ v, (insertManyHandler cfg env s).1 = { status := 200, body := v }) ∨
      (∃ e, (insertManyHandler cfg env s).1 =
        { status := 500, body := simpleErrBody e })) ∧
    (∀ e : JsError,
      lookupField "error" (fullErrBody e) = some (JVal.str e.message) ∧
      lookupField "error" (simpleErrBody e) = some (JVal.str e.message)) := by
  refine ⟨?_, ?_, ?_, ?_, ?_, ?_, ?_, ?_, ?_, ?_, ?_, ?_, ?_, ?_, ?_, ?_,
    ?_, ?_, ?_⟩
  · intro e s hs env hco body
    unfold queryHandler
    rw [hco]
    exact tryHandler_connect_fail cfg e s _ fullErrBody hs
  · intro e s hs env hco
    unfold aggregateHandler
    rw [hco]
    exact tryHandler_connect_fail cfg e s _ fullErrBody hs
  · intro e s hs env hco
    unfold countHandler
    rw [hco]
    exact tryHandler_connect_fail cfg e s _ fullErrBody hs
  · intro e s hs env hco
    unfold distinctHandler
    rw [hco]
    exact tryHandler_connect_fail cfg e s _ fullErrBody hs
  · intro e s hs env hco
    unfold insertOneHandler
    rw [hco]
    exact tryHandler_connect_fail cfg e s _ simpleErrBody hs
  · intro e s hs env hco
    unfold insertManyHandler
    rw [hco]
    exact tryHandler_connect_fail cfg e s _ simpleErrBody hs
  · intro e s c d hc hd env hto body
    unfold queryHandler
    refine tryHandler_run_fail cfg _ s _ fullErrBody e (by simp [hc]) ?_
    simp [getDb, hd, hto]
  · intro e s c d hc hd env hop
    unfold aggregateHandler
    refine tryHandler_run_fail cfg _ s _ fullErrBody e (by simp [hc]) ?_
    simp [getDb, hd, hop]
  · intro e s c d hc hd env hop
    unfold countHandler
    refine tryHandler_run_fail cfg _ s _ fullErrBody e (by simp [hc]) ?_
    simp [getDb, hd, hop]
  · intro e s c d hc hd env hop
    unfold distinctHandler
    refine tryHandler_run_fail cfg _ s _ fullErrBody e (by simp [hc]) ?_
    simp [getDb, hd, hop]
  · intro e s c d hc hd env hop
    unfold insertOneHandler
    refine tryHandler_run_fail cfg _ s _ simpleErrBody e (by simp [hc]) ?_
    simp [getDb, hd, hop]
  · intro e s c d hc hd env hop
    unfold insertManyHandler
    refine tryHandler_run_fail cfg _ s _ simpleErrBody e (by simp [hc]) ?_
    simp [getDb, hd, hop]
  · intro env body s
    exact tryHandler_cases cfg env.connectOutcome s _ fullErrBody
  · intro env s
    exact tryHandler_cases cfg env.connectOutcome s _ fullErrBody
  · intro env s
    exact tryHandler_cases cfg env.connectOutcome s _ fullErrBody
  · intro env s
    exact tryHandler_cases cfg env.connectOutcome s _ fullErrBody
  · intro env s
    exact tryHandler_cases cfg env.connectOutcome s _ simpleErrBody
  · intro env s
    exact tryHandler_cases cfg env.connectOutcome s _ simpleErrBody
  · intro e
    exact ⟨rfl, rfl⟩

/-- Witness for C3 at concrete inputs: a failed activation on a fresh
state turns into a 500 whose body carries the transport error message. -/
theorem c3_data_operation_failures_become_500_witness :
    (queryHandler demoConfig demoQueryEnv { collection := "users" }
      freshState).1 = { status := 500, body := fullErrBody demoError } :=
  (c3_data_operation_failures_become_500 demoConfig).1 demoError freshState
    rfl demoQueryEnv rfl { collection := "users" }

/-- A sample aggregate environment with successful outcomes. -/
def demoAggregateEnv : AggregateEnv :=
  { connectOutcome := Except.ok (), aggregateOutcome := Except.ok [] }

/-- A sample count environment with successful outcomes. -/
def demoCountEnv : CountEnv :=
  { connectOutcome := Except.ok (), countOutcome := Except.ok 42 }

/-- A sample distinct environment with successful outcomes. -/
def demoDistinctEnv : DistinctEnv :=
  { connectOutcome := Except.ok (), distinctOutcome := Except.ok [] }

/-- A sample insert environment with successful outcomes. -/
def demoInsertEnv : InsertEnv :=
  { connectOutcome := Except.ok (),
    insertOutcome := Except.ok (JVal.obj [("acknowledged", JVal.bool true)]) }

/-- A sample health environment with successful probes. -/
def demoHealthEnv : HealthEnv :=
  { timestamp := "2026-01-01T00:00:00Z", pingOutcome := Except.ok (),
    countOutcome := Except.ok 42 }

/-- A sample diagnose environment with successful probes. -/
def demoDiagEnv : DiagEnv :=
  { timestamp := "2026-01-01T00:00:00Z", nodeVersion := "v20.0.0",
    connectOutcome := Except.ok (), pingOutcome := Except.ok (),
    listOutcome := Except.ok ["network_tests"], countOutcome := Except.ok 42,
    findOneOutcome := Except.ok (some (JVal.obj [])) }

/-- A connected sample state. -/
def demoConnectedState : ConnState :=
  { mongoClient := some { uri := "mongodb://user:pw@host/db", closed := false },
    db := some "Saica" }

/-- C4: once the single process-wide handle is established, every request
handler (the six data operations, /health and /diagnose) leaves it
exactly as it is — same client, never closed, never replaced — and makes
no further connection attempt (established at most once); the SIGINT
shutdown path is the one that closes it, exiting with code 0. -/
theorem c4_handle_never_closed_or_replaced_by_handlers (cfg : Config)
    (s : ConnState) (c : Client) (h : s.mongoClient = some c)
    (qenv : QueryEnv) (qbody : QueryBody) (aenv : AggregateEnv)
    (cenv : CountEnv) (denv : DistinctEnv) (ienv : InsertEnv)
    (henv : HealthEnv) (genv : DiagEnv) (port : Nat) :
    (queryHandler cfg qenv qbody s).2 = (s, 0) ∧
    (aggregateHandler cfg aenv s).2 = (s, 0) ∧
    (countHandler cfg cenv s).2 = (s, 0) ∧
    (distinctHandler cfg denv s).2 = (s, 0) ∧
    (insertOneHandler cfg ienv s).2 = (s, 0) ∧
    (insertManyHandler cfg ienv s).2 = (s, 0) ∧
    (healthHandler cfg henv s).2 = (s, 0) ∧
    (diagnoseHandler cfg port genv s).2 = (s, 0) ∧
    sigintHandler s =
      (0, { s with mongoClient := some { c with closed := true } }) := by
  have hi : s.mongoClient.isSome := by simp [h]
  refine ⟨tryHandler_already_state cfg _ s _ _ hi,
    tryHandler_already_state cfg _ s _ _ hi,
    tryHandler_already_state cfg _ s _ _ hi,
    tryHandler_already_state cfg _ s _ _ hi,
    tryHandler_already_state cfg _ s _ _ hi,
    tryHandler_already_state cfg _ s _ _ hi,
    rfl, ?_, ?_⟩
  · unfold diagnoseHandler runDiagnose
    rw [connectToMongo_already cfg genv.connectOutcome s hi]
  · simp [sigintHandler, h]

/-- Witness for C4 at concrete inputs. -/
theorem c4_handle_never_closed_or_replaced_by_handlers_witness :
    (queryHandler demoConfig demoQueryEnv { collection := "users" }
      demoConnectedState).2 = (demoConnectedState, 0) ∧
    (aggregateHandler demoConfig demoAggregateEnv demoConnectedState).2 =
      (demoConnectedState, 0) ∧
    (countHandler demoConfig demoCountEnv demoConnectedState).2 =
      (demoConnectedState, 0) ∧
    (distinctHandler demoConfig demoDistinctEnv demoConnectedState).2 =
      (demoConnectedState, 0) ∧
    (insertOneHandler demoConfig demoInsertEnv demoConnectedState).2 =
      (demoConnectedState, 0) ∧
    (insertManyHandler demoConfig demoInsertEnv demoConnectedState).2 =
      (demoConnectedState, 0) ∧
    (healthHandler demoConfig demoHealthEnv demoConnectedState).2 =
      (demoConnectedState, 0) ∧
    (diagnoseHandler demoConfig 3000 demoDiagEnv demoConnectedState).2 =
      (demoConnectedState, 0) ∧
    sigintHandler demoConnectedState =
      (0, { demoConnectedState with
              mongoClient := some { uri := "mongodb://user:pw@host/db",
                                    closed := true } }) :=
  c4_handle_never_closed_or_replaced_by_handlers demoConfig
    demoConnectedState { uri := "mongodb://user:pw@host/db", closed := false }
    rfl demoQueryEnv { collection := "users" } demoAggregateEnv demoCountEnv
    demoDistinctEnv demoInsertEnv demoHealthEnv demoDiagEnv 3000

/-- A sample query environment with successful outcomes and two documents
in every collection. -/
def demoOkQueryEnv : QueryEnv :=
  { connectOutcome := Except.ok (),
    collData := fun _ => [JVal.num 1, JVal.num 2],
    qmatch := fun _ _ => true, sortFn := fun _ d => d,
    toArrayOutcome := Except.ok () }

/-- The sort stage of the /query option chain:
`if (options.sort) cursor = cursor.sort(options.sort)`. -/
def applySortOpt (sortFn : JVal → List JVal → List JVal) :
    Option JVal → List JVal → List JVal
  | some sv, docs => if jsTruthy sv then sortFn sv docs else docs
  | none, docs => docs

/-- The skip stage of the /query option chain:
`if (options.skip) cursor = cursor.skip(options.skip)`. -/
def applySkipOpt : Option Int → List JVal → List JVal
  | some n, docs => if n != 0 then docs.drop n.toNat else docs
  | none, docs => docs

/-- The limit stage of the /query option chain:
`if (options.limit) cursor = cursor.limit(options.limit)`. -/
def applyLimitOpt : Option Int → List JVal → List JVal
  | some n, docs => if n != 0 then docs.take n.toNat else docs
  | none, docs => docs

/-- The option chain is the independent composition of its three stages:
each stage is gated only by its own option. -/
lemma applyQueryOptions_decomp (sortFn : JVal → List JVal → List JVal)
    (opts : QueryOptions) (docs : List JVal) :
    applyQueryOptions sortFn opts docs =
      applyLimitOpt opts.limit (applySkipOpt opts.skip
        (applySortOpt sortFn opts.sort docs)) := by
  rcases opts with ⟨so, sk, li⟩
  cases so <;> cases sk <;> cases li <;> rfl

/-- C6: for every /query request, the sort, skip and limit options are
each applied to the cursor only when present and truthy, independently
of the other two options: the option chain decomposes into three
independently-gated stages (conjunct 1), each stage is the identity when
its option is absent or falsy (such as 0) and performs its operation
exactly when its option is truthy (conjuncts 2-10, universal over
arbitrary cursor contents, hence over arbitrary values of the other
options), and a valid find request answers 200 with the matching
documents of the collection in natural order under exactly the
truthy-gated stages — in particular, with no options, all matching
documents unrestricted (conjuncts 11 and 12). -/
theorem c6_query_options_only_when_truthy (cfg : Config) :
    (∀ (sortFn : JVal → List JVal → List JVal) (opts : QueryOptions)
      (docs : List JVal),
      applyQueryOptions sortFn opts docs =
        applyLimitOpt opts.limit (applySkipOpt opts.skip
          (applySortOpt sortFn opts.sort docs))) ∧
    (∀ (sortFn : JVal → List JVal → List JVal) (docs : List JVal),
      applySortOpt sortFn none docs = docs) ∧
    (∀ (sortFn : JVal → List JVal → List JVal) (sv : JVal)
      (docs : List JVal), jsTruthy sv = false →
      applySortOpt sortFn (some sv) docs = docs) ∧
    (∀ (sortFn : JVal → List JVal → List JVal) (sv : JVal)
      (docs : List JVal), jsTruthy sv = true →
      applySortOpt sortFn (some sv) docs = sortFn sv docs) ∧
    (∀ docs : List JVal, applySkipOpt none docs = docs) ∧
    (∀ docs : List JVal, applySkipOpt (some 0) docs = docs) ∧
    (∀ (n : Int) (docs : List JVal), n ≠ 0 →
      applySkipOpt (some n) docs = docs.drop n.toNat) ∧
    (∀ docs : List JVal, applyLimitOpt none docs = docs) ∧
    (∀ docs : List JVal, applyLimitOpt (some 0) docs = docs) ∧
    (∀ (n : Int) (docs : List JVal), n ≠ 0 →
      applyLimitOpt (some n) docs = docs.take n.toNat) ∧
    (∀ (env : QueryEnv) (body : QueryBody) (s : ConnState),
      s.mongoClient = none → env.connectOutcome = Except.ok () →
      env.toArrayOutcome = Except.ok () →
      (queryHandler cfg env body s).1 =
        { status := 200,
          body := JVal.arr (applyLimitOpt (body.options.getD {}).limit
            (applySkipOpt (body.options.getD {}).skip
              (applySortOpt env.sortFn (body.options.getD {}).sort
                ((env.collData body.collection).filter
                  (env.qmatch (body.query.getD (JVal.obj []))))))) }) ∧
    (∀ (env : QueryEnv) (body : QueryBody) (s : ConnState),
      s.mongoClient = none → env.connectOutcome = Except.ok () →
      env.toArrayOutcome = Except.ok () → body.options = none →
      (queryHandler cfg env body s).1 =
        { status := 200,
          body := JVal.arr ((env.collData body.collection).filter
            (env.qmatch (body.query.getD (JVal.obj [])))) }) := by
  refine ⟨applyQueryOptions_decomp, fun sortFn docs => rfl, ?_, ?_,
    fun docs => rfl, fun docs => rfl, ?_, fun docs => rfl, fun docs => rfl,
    ?_, ?_, ?_⟩
  · intro sortFn sv docs hsv
    simp [applySortOpt, hsv]
  · intro sortFn sv docs hsv
    simp [applySortOpt, hsv]
  · intro n docs hn
    simp [applySkipOpt, hn]
  · intro n docs hn
    simp [applyLimitOpt, hn]
  · intro env body s hs hco hto
    simp [queryHandler, tryHandler, connectToMongo, getDb, hs, hco, hto,
      applyQueryOptions_decomp]
  · intro env body s hs hco hto hopt
    simp [queryHandler, tryHandler, connectToMongo, getDb, hs, hco, hto,
      hopt, applyQueryOptions]

/-- A sample query body mixing a truthy sort with a falsy skip. -/
def demoMixedBody : QueryBody :=
  { collection := "users",
    options := some { sort := some (JVal.obj []), skip := some 0 } }

/-- Witness for C6 at concrete inputs, including a mixed request whose
sort is truthy while its skip is the falsy 0: the sort is applied, the
skip imposes no restriction, and an optionless find returns both
documents of the collection in natural order. -/
theorem c6_query_options_only_when_truthy_witness :
    applyQueryOptions (fun _ d => d.reverse)
      { sort := some (JVal.obj []), skip := some 0, limit := none }
      [JVal.num 1, JVal.num 2] = [JVal.num 2, JVal.num 1] ∧
    jsTruthy (JVal.num 0) = false ∧
    applySortOpt (fun _ d => d.reverse) (some (JVal.num 0))
      [JVal.num 7] = [JVal.num 7] ∧
    (2 : Int) ≠ 0 ∧
    applySkipOpt (some 2) [JVal.num 1, JVal.num 2, JVal.num 3] =
      [JVal.num 3] ∧
    (1 : Int) ≠ 0 ∧
    applyLimitOpt (some 1) [JVal.num 1, JVal.num 2] = [JVal.num 1] ∧
    (queryHandler demoConfig
      { demoOkQueryEnv with sortFn := fun _ d => d.reverse }
      demoMixedBody freshState).1 =
      { status := 200, body := JVal.arr [JVal.num 2, JVal.num 1] } ∧
    (queryHandler demoConfig demoOkQueryEnv { collection := "users" }
      freshState).1 =
      { status := 200, body := JVal.arr [JVal.num 1, JVal.num 2] } := by
  obtain ⟨h1, h2, h3, h4, h5, h6, h7, h8, h9, h10, h11, h12⟩ :=
    c6_query_options_only_when_truthy demoConfig
  refine ⟨?_, rfl, h3 (fun _ d => d.reverse) (JVal.num 0) [JVal.num 7] rfl,
    by decide, ?_, by decide, ?_, ?_, ?_⟩
  · rw [h1, h4 (fun _ d => d.reverse) (JVal.obj []) [JVal.num 1, JVal.num 2]
      rfl, h6, h8]
    rfl
  · rw [h7 2 [JVal.num 1, JVal.num 2, JVal.num 3] (by decide)]
    rfl
  · rw [h10 1 [JVal.num 1, JVal.num 2] (by decide)]
    rfl
  · have := h11 { demoOkQueryEnv with sortFn := fun _ d => d.reverse }
      demoMixedBody freshState rfl rfl rfl
    simpa [demoMixedBody, demoOkQueryEnv, applySortOpt, applySkipOpt,
      applyLimitOpt] using this
  · have := h12 demoOkQueryEnv { collection := "users" } freshState
      rfl rfl rfl rfl
    simpa using this

/-- Well-formedness of a reported sub-probe: status is "success" with no
error message, or "failed" with an error message. -/
def probeWF (p : ProbeResult) : Prop :=
  (p.status = "success" ∧ p.error = none) ∨
  (p.status = "failed" ∧ p.error.isSome = true)

/-- The ping probe is always well formed. -/
lemma pingProbe_wf (env : DiagEnv) (s1 : ConnState) :
    probeWF (pingProbe env s1) := by
  unfold pingProbe probeWF
  cases s1.db with
  | none => exact Or.inr ⟨rfl, rfl⟩
  | some d =>
    cases env.pingOutcome with
    | ok u => exact Or.inl ⟨rfl, rfl⟩
    | error e => exact Or.inr ⟨rfl, rfl⟩

/-- The listCollections probe is always well formed. -/
lemma listProbe_wf (env : DiagEnv) (s1 : ConnState) :
    probeWF (listProbe env s1) := by
  unfold listProbe probeWF
  cases s1.db with
  | none => exact Or.inr ⟨rfl, rfl⟩
  | some d =>
    cases env.listOutcome with
    | ok names => exact Or.inl ⟨rfl, rfl⟩
    | error e => exact Or.inr ⟨rfl, rfl⟩

/-- The network_tests probe is always well formed. -/
lemma netProbe_wf (env : DiagEnv) (s1 : ConnState) :
    probeWF (netProbe env s1) := by
  unfold netProbe probeWF
  cases s1.db with
  | none => exact Or.inr ⟨rfl, rfl⟩
  | some d =>
    cases env.countOutcome with
    | ok n =>
      cases env.findOneOutcome with
      | ok sample => exact Or.inl ⟨rfl, rfl⟩
      | error e => exact Or.inr ⟨rfl, rfl⟩
    | error e => exact Or.inr ⟨rfl, rfl⟩

/-- A diagnose environment whose connect transport fails. -/
def demoFailDiagEnv : DiagEnv :=
  { timestamp := "2026-01-01T00:00:00Z", nodeVersion := "v20.0.0",
    connectOutcome := Except.error demoError, pingOutcome := Except.ok (),
    listOutcome := Except.ok [], countOutcome := Except.ok 0,
    findOneOutcome := Except.ok none }

/-- C5 counterexample: when the connect sub-probe fails, the /diagnose
handler returns early, so the (still 200) response reports only the
connect sub-probe — the ping, list-collections and sample-query
sub-probes are absent, refuting the claim that every response reports
four sub-probes. -/
theorem c5_counterexample_early_return_reports_one_probe :
    (runDiagnose demoConfig 3000 demoFailDiagEnv freshState).1.testsPing =
      none ∧
    (runDiagnose demoConfig 3000 demoFailDiagEnv
      freshState).1.testsListCollections = none ∧
    (runDiagnose demoConfig 3000 demoFailDiagEnv
      freshState).1.testsNetworkTests = none ∧
    (runDiagnose demoConfig 3000 demoFailDiagEnv
      freshState).1.testsConnection.status = "failed" ∧
    (diagnoseHandler demoConfig 3000 demoFailDiagEnv freshState).1.status =
      200 :=
  ⟨rfl, rfl, rfl, rfl, rfl⟩

/-- C5 amended: every /diagnose response is a 200 whose connect sub-probe
carries status success or failed with an error message on failure; when
the connect sub-probe succeeds, the ping, list-collections and
sample-query sub-probes are also reported, each well formed; when the
connect sub-probe fails, the handler responds early and the later
sub-probes are absent. -/
theorem c5_diagnose_reports_probes (cfg : Config) (port : Nat)
    (env : DiagEnv) (s : ConnState) :
    (diagnoseHandler cfg port env s).1.status = 200 ∧
    probeWF (runDiagnose cfg port env s).1.testsConnection ∧
    ((runDiagnose cfg port env s).1.testsConnection.status = "success" →
      ∃ p1 p2 p3,
        (runDiagnose cfg port env s).1.testsPing = some p1 ∧ probeWF p1 ∧
        (runDiagnose cfg port env s).1.testsListCollections = some p2 ∧
        probeWF p2 ∧
        (runDiagnose cfg port env s).1.testsNetworkTests = some p3 ∧
        probeWF p3) ∧
    ((runDiagnose cfg port env s).1.testsConnection.status = "failed" →
      (runDiagnose cfg port env s).1.testsPing = none ∧
      (runDiagnose cfg port env s).1.testsListCollections = none ∧
      (runDiagnose cfg port env s).1.testsNetworkTests = none) := by
  unfold diagnoseHandler runDiagnose
  rcases hc : connectToMongo cfg env.connectOutcome s with ⟨r, s1, a⟩
  cases r with
  | error e =>
    refine ⟨rfl, Or.inr ⟨rfl, rfl⟩, ?_, fun _ => ⟨rfl, rfl, rfl⟩⟩
    intro hsucc
    simp [probeFail] at hsucc
  | ok u =>
    refine ⟨rfl, Or.inl ⟨rfl, rfl⟩, ?_, ?_⟩
    · intro _
      exact ⟨pingProbe env s1, listProbe env s1, netProbe env s1,
        rfl, pingProbe_wf env s1, rfl, listProbe_wf env s1,
        rfl, netProbe_wf env s1⟩
    · intro hfail
      simp at hfail

/-- Witness for C5 at concrete inputs. -/
theorem c5_diagnose_reports_probes_witness :
    (diagnoseHandler demoConfig 3000 demoDiagEnv freshState).1.status =
      200 ∧
    (runDiagnose demoConfig 3000 demoDiagEnv
      freshState).1.testsConnection.status = "success" ∧
    ∃ p1 p2 p3,
      (runDiagnose demoConfig 3000 demoDiagEnv freshState).1.testsPing =
        some p1 ∧ probeWF p1 ∧
      (runDiagnose demoConfig 3000 demoDiagEnv
        freshState).1.testsListCollections = some p2 ∧ probeWF p2 ∧
      (runDiagnose demoConfig 3000 demoDiagEnv
        freshState).1.testsNetworkTests = some p3 ∧ probeWF p3 :=
  ⟨(c5_diagnose_reports_probes demoConfig 3000 demoDiagEnv freshState).1,
   rfl,
   (c5_diagnose_reports_probes demoConfig 3000 demoDiagEnv
     freshState).2.2.1 rfl⟩

/-- A health environment whose ping probe fails. -/
def demoFailHealthEnv : HealthEnv :=
  { timestamp := "2026-01-01T00:00:00Z",
    pingOutcome := Except.error demoError, countOutcome := Except.ok 0 }

/-- C7: GET /health and GET /diagnose always respond 200 — internal probe
failures are reported inline instead of failing the request; for /health
a ping-probe failure keeps the same response shape with status
"degraded" and a pingError field. -/
theorem c7_health_diagnose_never_non_200 (cfg : Config) (henv : HealthEnv)
    (s : ConnState) (port : Nat) (denv : DiagEnv) :
    (healthHandler cfg henv s).1.status = 200 ∧
    (diagnoseHandler cfg port denv s).1.status = 200 ∧
    (∀ (d : String) (e : JsError), s.db = some d →
      henv.pingOutcome = Except.error e →
      (runHealth cfg henv s).status = "degraded" ∧
      (runHealth cfg henv s).pingError = some e.message) := by
  refine ⟨rfl, ?_, ?_⟩
  · unfold diagnoseHandler
    rcases h : runDiagnose cfg port denv s with ⟨d, s1, a⟩
    rfl
  · intro d e hd hp
    unfold runHealth
    rw [hd, hp]
    exact ⟨rfl, rfl⟩

/-- Witness for C7 at concrete inputs: both endpoints answer 200, and a
failed ping on a connected state yields a degraded health body carrying
the ping error message. -/
theorem c7_health_diagnose_never_non_200_witness :
    (healthHandler demoConfig demoFailHealthEnv demoConnectedState).1.status
      = 200 ∧
    (diagnoseHandler demoConfig 3000 demoDiagEnv
      demoConnectedState).1.status = 200 ∧
    ((runHealth demoConfig demoFailHealthEnv demoConnectedState).status =
      "degraded" ∧
     (runHealth demoConfig demoFailHealthEnv demoConnectedState).pingError =
      some "connect ECONNREFUSED") :=
  ⟨(c7_health_diagnose_never_non_200 demoConfig demoFailHealthEnv
      demoConnectedState 3000 demoDiagEnv).1,
   (c7_health_diagnose_never_non_200 demoConfig demoFailHealthEnv
      demoConnectedState 3000 demoDiagEnv).2.1,
   (c7_health_diagnose_never_non_200 demoConfig demoFailHealthEnv
      demoConnectedState 3000 demoDiagEnv).2.2 "Saica" demoError rfl rfl⟩

/-- A 500 response of a tryHandler-shaped handler carries its error body
applied to some error. -/
lemma tryHandler_500_body (cfg : Config) (o : Except JsError Unit)
    (s : ConnState) (run : ConnState → Except JsError JVal)
    (errBody : JsError → JVal)
    (h : (tryHandler cfg o s run errBody).1.status = 500) :
    ∃ e, (tryHandler cfg o s run errBody).1.body = errBody e := by
  rcases tryHandler_cases cfg o s run errBody with ⟨v, hv⟩ | ⟨e, he⟩
  · rw [hv] at h
    simp at h
  · exact ⟨e, by rw [he]⟩

/-- C8: every failure response of /query, /aggregate, /count and
/distinct is a 500 whose JSON body is exactly
`{error: message, code: error code, details: fixed hint}`, while every
failure response of /insertOne and /insertMany is a 500 whose body is
exactly `{error: message}`. -/
theorem c8_error_body_shapes (cfg : Config) :
    (∀ (env : QueryEnv) (body : QueryBody) (s : ConnState),
      (queryHandler cfg env body s).1.status = 500 →
      ∃ e, (queryHandler cfg env body s).1.body = fullErrBody e) ∧
    (∀ (env : AggregateEnv) (s : ConnState),
      (aggregateHandler cfg env s).1.status = 500 →
      ∃ e, (aggregateHandler cfg env s).1.body = fullErrBody e) ∧
    (∀ (env : CountEnv) (s : ConnState),
      (countHandler cfg env s).1.status = 500 →
      ∃ e, (countHandler cfg env s).1.body = fullErrBody e) ∧
    (∀ (env : DistinctEnv) (s : ConnState),
      (distinctHandler cfg env s).1.status = 500 →
      ∃ e, (distinctHandler cfg env s).1.body = fullErrBody e) ∧
    (∀ (env : InsertEnv) (s : ConnState),
      (insertOneHandler cfg env s).1.status = 500 →
      ∃ e, (insertOneHandler cfg env s).1.body = simpleErrBody e) ∧
    (∀ (env : InsertEnv) (s : ConnState),
      (insertManyHandler cfg env s).1.status = 500 →
      ∃ e, (insertManyHandler cfg env s).1.body = simpleErrBody e) ∧
    (∀ e : JsError,
      fullErrBody e = JVal.obj [("error", JVal.str e.message),
        ("code", e.code), ("details", JVal.str detailsMessage)] ∧
      simpleErrBody e = JVal.obj [("error", JVal.str e.message)]) := by
  refine ⟨?_, ?_, ?_, ?_, ?_, ?_, fun e => ⟨rfl, rfl⟩⟩
  · intro env body s h
    unfold queryHandler at h ⊢
    exact tryHandler_500_body cfg _ s _ fullErrBody h
  · intro env s h
    unfold aggregateHandler at h ⊢
    exact tryHandler_500_body cfg _ s _ fullErrBody h
  · intro env s h
    unfold countHandler at h ⊢
    exact tryHandler_500_body cfg _ s _ fullErrBody h
  · intro env s h
    unfold distinctHandler at h ⊢
    exact tryHandler_500_body cfg _ s _ fullErrBody h
  · intro env s h
    unfold insertOneHandler at h ⊢
    exact tryHandler_500_body cfg _ s _ simpleErrBody h
  · intro env s h
    unfold insertManyHandler at h ⊢
    exact tryHandler_500_body cfg _ s _ simpleErrBody h

/-- A sample insert environment whose connect attempt fails. -/
def demoFailInsertEnv : InsertEnv :=
  { connectOutcome := Except.error demoError,
    insertOutcome := Except.ok JVal.null }

/-- Witness for C8 at concrete inputs: a failing /query yields the rich
body, a failing /insertOne the plain body. -/
theorem c8_error_body_shapes_witness :
    (∃ e, (queryHandler demoConfig demoQueryEnv { collection := "users" }
      freshState).1.body = fullErrBody e) ∧
    (∃ e, (insertOneHandler demoConfig demoFailInsertEnv
      freshState).1.body = simpleErrBody e) :=
  ⟨(c8_error_body_shapes demoConfig).1 demoQueryEnv { collection := "users" }
      freshState rfl,
   (c8_error_body_shapes demoConfig).2.2.2.2.1 demoFailInsertEnv
      freshState rfl⟩

/-- C9: a missing (or empty, hence falsy) MONGODB_URI at process start
exits with code 1 before any listener opens; a present non-empty URI
lets startup proceed to listen on the configured port. -/
theorem c9_missing_uri_fatal (port : Nat) :
    startupCheck none port = StartOutcome.exitCode 1 ∧
    startupCheck (some "") port = StartOutcome.exitCode 1 ∧
    (∀ u : String, u ≠ "" →
      startupCheck (some u) port = StartOutcome.listening port) := by
  refine ⟨rfl, rfl, ?_⟩
  intro u hu
  simp [startupCheck, hu]

/-- Witness for C9 at concrete inputs. -/
theorem c9_missing_uri_fatal_witness :
    startupCheck none 3000 = StartOutcome.exitCode 1 ∧
    startupCheck (some "") 3000 = StartOutcome.exitCode 1 ∧
    startupCheck (some "mongodb://user:pw@host/db") 3000 =
      StartOutcome.listening 3000 :=
  ⟨(c9_missing_uri_fatal 3000).1, (c9_missing_uri_fatal 3000).2.1,
   (c9_missing_uri_fatal 3000).2.2 "mongodb://user:pw@host/db"
     (by decide)⟩

/-- C10: GET /health never mutates connection state and makes no
connection attempt (it never invokes connectToMongo), and on a process
that has never connected it responds 200 with connected false and status
ok. -/
theorem c10_health_is_effect_free (cfg : Config) (env : HealthEnv)
    (s : ConnState) :
    (healthHandler cfg env s).2.1 = s ∧
    (healthHandler cfg env s).2.2 = 0 ∧
    (runHealth cfg env freshState).connected = false ∧
    (runHealth cfg env freshState).status = "ok" ∧
    (healthHandler cfg env freshState).1.status = 200 :=
  ⟨rfl, rfl, rfl, rfl, rfl⟩

end MongoProxy
